import Mathlib

/-!
Verification of the backend-selection shim `pylops/utils/backend.py`.

The module is embedded shallowly: capability flags become an explicit
record of booleans, module handles a closed inductive type (with extra
`other` handles so that "neither supported module" is expressible),
arrays a record carrying their residence flag and contents, and every
fallible function returns `Except Err _` where `Err` mirrors the Python
exception kinds the file can raise (`ValueError`, `ModuleNotFoundError`,
`NotImplementedError`, plus `NameError` for evaluating the name `cp`
when the guarded `import cupy as cp` was skipped).
-/

/-- The two capability flags read from `pylops.utils.deps`: whether the
`cupy` package is importable, and whether the `cusignal` package is. -/
structure Deps where
  cupy_enabled : Bool
  cusignal_enabled : Bool
deriving DecidableEq, Repr

/-- An array-module handle. `np` and `cp` are the two supported modules;
`other n` stands for any object that is neither, as may be passed to
`get_module_name`. -/
inductive ModuleHandle
  | np
  | cp
  | other (n : Nat)
deriving DecidableEq, Repr

/-- The error kinds the embedded functions can produce, mirroring the
Python exception classes raised in `backend.py`. `nameError s` models the
`NameError` raised when an unbound global name `s` is evaluated (which
happens for `cp` when `deps.cupy_enabled` is false, since the module-level
`import cupy as cp` is guarded by that flag). -/
inductive Err
  | valueError (msg : String)
  | moduleNotFoundError (msg : String)
  | notImplementedError (msg : String)
  | nameError (name : String)
deriving DecidableEq, Repr

/-- Whether a result is a `ValueError` failure. -/
def failsWithValueError {α : Type} : Except Err α → Bool
  | Except.error (Err.valueError _) => true
  | _ => false

/-- An array value: whether it is GPU-resident (a `cupy` array) and its
numeric contents. -/
structure Arr where
  onGpu : Bool
  data : List Int
deriving DecidableEq, Repr

/-- The module-level string `cu_message` of `backend.py` (two adjacent
Python string literals, concatenated). -/
def cu_message : String :=
  "cupy package not installed. Use numpy arrays of install cupy."

/-- The module-level string `cusignal_message` of `backend.py` (two
adjacent Python string literals, concatenated; the source has no space
between "of" and "install"). -/
def cusignal_message : String :=
  "cusignal package not installed. Use numpy arrays ofinstall cusignal."

/-- The library function `cp.get_array_module`: returns the `cupy` module
handle for a GPU-resident array and the `numpy` handle otherwise. Calling
it presupposes that the name `cp` is bound, which callers below ensure by
guarding on `deps.cupy_enabled`. -/
def cp_get_array_module (x : Arr) : ModuleHandle :=
  if x.onGpu then ModuleHandle.cp else ModuleHandle.np

/-- The library function `cp.asarray`: produces a new GPU-resident array
holding the same contents; the argument is not mutated. -/
def cp_asarray (y : Arr) : Arr :=
  { y with onGpu := true }

/-- Embedding of `get_module`: dispatch on the backend string. Evaluating
the global `cp` when `deps.cupy_enabled` is false raises `NameError`;
any string other than "numpy" or "cupy" raises `ValueError` without
touching `cp`. -/
def get_module (deps : Deps) (backend : String) : Except Err ModuleHandle :=
  if backend = "numpy" then
    Except.ok ModuleHandle.np
  else if backend = "cupy" then
    if deps.cupy_enabled then Except.ok ModuleHandle.cp
    else Except.error (Err.nameError "cp")
  else
    Except.error (Err.valueError "backend must be numpy or cupy")

/-- Embedding of `get_module_name`: `mod == np` is tested first; the
`elif mod == cp` test evaluates the global `cp`, raising `NameError` when
`deps.cupy_enabled` is false; otherwise a handle that is neither module
raises `ValueError`. -/
def get_module_name (deps : Deps) (mod : ModuleHandle) : Except Err String :=
  if mod = ModuleHandle.np then
    Except.ok "numpy"
  else if deps.cupy_enabled then
    if mod = ModuleHandle.cp then Except.ok "cupy"
    else Except.error (Err.valueError "module must be numpy or cupy")
  else
    Except.error (Err.nameError "cp")

/-- Embedding of `get_array_module`: with GPU support it defers to
`cp.get_array_module`; without it, it returns `np` unconditionally. -/
def get_array_module (deps : Deps) (x : Arr) : ModuleHandle :=
  if deps.cupy_enabled then cp_get_array_module x else ModuleHandle.np

/-- The closed set of convolution callables the resolver can return. -/
inductive ConvFn
  | scipy_convolve
  | scipy_fftconvolve
  | scipy_oaconvolve
  | cusignal_convolve
  | cusignal_fftconvolve
deriving DecidableEq, Repr

/-- Embedding of `get_convolve`. -/
def get_convolve (deps : Deps) (x : Arr) : Except Err ConvFn :=
  if deps.cupy_enabled = false then
    Except.ok ConvFn.scipy_convolve
  else if cp_get_array_module x = ModuleHandle.np then
    Except.ok ConvFn.scipy_convolve
  else if deps.cusignal_enabled then
    Except.ok ConvFn.cusignal_convolve
  else
    Except.error (Err.moduleNotFoundError cusignal_message)

/-- Embedding of `get_fftconvolve`. -/
def get_fftconvolve (deps : Deps) (x : Arr) : Except Err ConvFn :=
  if deps.cupy_enabled = false then
    Except.ok ConvFn.scipy_fftconvolve
  else if cp_get_array_module x = ModuleHandle.np then
    Except.ok ConvFn.scipy_fftconvolve
  else if deps.cusignal_enabled then
    Except.ok ConvFn.cusignal_fftconvolve
  else
    Except.error (Err.moduleNotFoundError cusignal_message)

/-- Embedding of `get_oaconvolve` (the `NotImplementedError` message is
the source's three adjacent string literals, concatenated; the source has
no space between "different" and "option"). -/
def get_oaconvolve (deps : Deps) (x : Arr) : Except Err ConvFn :=
  if deps.cupy_enabled = false then
    Except.ok ConvFn.scipy_oaconvolve
  else if cp_get_array_module x = ModuleHandle.np then
    Except.ok ConvFn.scipy_oaconvolve
  else
    Except.error (Err.notImplementedError
      "oaconvolve not implemented in cupy/cusignal. Consider using a differentoption...")

/-- Embedding of `to_cupy_conditional`: convert `y` with `cp.asarray`
exactly when GPU support is enabled, `x` is a `cupy` array and `y` is a
`numpy` array. -/
def to_cupy_conditional (deps : Deps) (x y : Arr) : Arr :=
  if deps.cupy_enabled then
    if cp_get_array_module x = ModuleHandle.cp ∧ cp_get_array_module y = ModuleHandle.np
    then cp_asarray y
    else y
  else y

/-- C1 counterexample: in an environment without GPU support, the
round-trip fails for the valid name "cupy": resolving it raises
`NameError`, so composing with `get_module_name` does not return "cupy". -/
theorem get_module_roundtrip_cex :
    (get_module ⟨false, false⟩ "cupy").bind (get_module_name ⟨false, false⟩)
      ≠ Except.ok "cupy" := by
  simp [get_module, Except.bind]

/-- C1 (amended): whenever `get_module` resolves a valid name to a module
handle (always for "numpy"; for "cupy" when GPU support is enabled),
`get_module_name` on that handle returns the original name. -/
theorem get_module_roundtrip (deps : Deps) (name : String) (m : ModuleHandle)
    (hv : name = "numpy" ∨ name = "cupy")
    (hres : get_module deps name = Except.ok m) :
    get_module_name deps m = Except.ok name := by
  obtain ⟨ce, cs⟩ := deps
  rcases hv with h | h <;> subst h
  · have hm : ModuleHandle.np = m := by
      cases ce <;> simpa [get_module] using hres
    subst hm
    cases ce <;> simp [get_module_name]
  · cases ce
    · exact absurd hres (by simp [get_module])
    · have hm : ModuleHandle.cp = m := by simpa [get_module] using hres
      subst hm
      simp [get_module_name]

/-- C1 witness: the round-trip at the concrete name "cupy" with GPU
support enabled. -/
theorem get_module_roundtrip_wit :
    get_module_name ⟨true, false⟩ ModuleHandle.cp = Except.ok "cupy" :=
  get_module_roundtrip ⟨true, false⟩ "cupy" ModuleHandle.cp (Or.inr rfl) rfl

/-- C2: without GPU support, each convolution resolver returns the scipy
implementation of its variant, for every input array. -/
theorem cpu_convolution_fallback (deps : Deps) (x : Arr)
    (h : deps.cupy_enabled = false) :
    get_convolve deps x = Except.ok ConvFn.scipy_convolve
    ∧ get_fftconvolve deps x = Except.ok ConvFn.scipy_fftconvolve
    ∧ get_oaconvolve deps x = Except.ok ConvFn.scipy_oaconvolve := by
  simp [get_convolve, get_fftconvolve, get_oaconvolve, h]

/-- C2 witness: a concrete GPU-shaped array in a no-GPU environment. -/
theorem cpu_convolution_fallback_wit :
    get_convolve ⟨false, false⟩ ⟨true, [1, 2]⟩ = Except.ok ConvFn.scipy_convolve
    ∧ get_fftconvolve ⟨false, false⟩ ⟨true, [1, 2]⟩ = Except.ok ConvFn.scipy_fftconvolve
    ∧ get_oaconvolve ⟨false, false⟩ ⟨true, [1, 2]⟩ = Except.ok ConvFn.scipy_oaconvolve :=
  cpu_convolution_fallback ⟨false, false⟩ ⟨true, [1, 2]⟩ rfl

/-- C3: `to_cupy_conditional deps x y` is `cp.asarray y` (a fresh
GPU-resident array) exactly when GPU support is enabled, `x` is
GPU-resident and `y` is CPU-resident, and is `y` itself in every other
case; in both cases the returned array holds `y`'s contents unchanged
(the embedding is pure, so `y` is never mutated). -/
theorem to_cupy_conditional_spec (deps : Deps) (x y : Arr) :
    to_cupy_conditional deps x y =
      (if deps.cupy_enabled = true ∧ x.onGpu = true ∧ y.onGpu = false
       then cp_asarray y else y)
    ∧ (to_cupy_conditional deps x y).data = y.data := by
  obtain ⟨ce, cs⟩ := deps
  obtain ⟨xg, xd⟩ := x
  obtain ⟨yg, yd⟩ := y
  cases ce <;> cases xg <;> cases yg <;>
    simp [to_cupy_conditional, cp_get_array_module, cp_asarray]

/-- C4: with GPU support enabled and a GPU-resident input, resolving the
overlap-add variant always fails with `NotImplementedError`, whatever the
value of the cusignal flag. -/
theorem gpu_oaconvolve_unsupported (deps : Deps) (x : Arr)
    (hg : deps.cupy_enabled = true) (hx : x.onGpu = true) :
    get_oaconvolve deps x = Except.error (Err.notImplementedError
      "oaconvolve not implemented in cupy/cusignal. Consider using a differentoption...") := by
  simp [get_oaconvolve, cp_get_array_module, hg, hx]

/-- C4 witness: concrete GPU array with cusignal installed — still fails. -/
theorem gpu_oaconvolve_unsupported_wit :
    get_oaconvolve ⟨true, true⟩ ⟨true, [3]⟩ = Except.error (Err.notImplementedError
      "oaconvolve not implemented in cupy/cusignal. Consider using a differentoption...") :=
  gpu_oaconvolve_unsupported ⟨true, true⟩ ⟨true, [3]⟩ rfl rfl

/-- C5: with GPU support enabled and a GPU-resident input, the plain and
fft resolvers fail with `ModuleNotFoundError` carrying `cusignal_message`
when cusignal is absent, and return the cusignal implementations when it
is present; the message names the missing cusignal package. -/
theorem gpu_convolve_dispatch (deps : Deps) (x : Arr)
    (hg : deps.cupy_enabled = true) (hx : x.onGpu = true) :
    (deps.cusignal_enabled = false →
      get_convolve deps x = Except.error (Err.moduleNotFoundError cusignal_message)
      ∧ get_fftconvolve deps x = Except.error (Err.moduleNotFoundError cusignal_message))
    ∧ (deps.cusignal_enabled = true →
      get_convolve deps x = Except.ok ConvFn.cusignal_convolve
      ∧ get_fftconvolve deps x = Except.ok ConvFn.cusignal_fftconvolve)
    ∧ cusignal_message =
        "cusignal package not installed. Use numpy arrays ofinstall cusignal." := by
  obtain ⟨ce, cs⟩ := deps
  cases cs <;>
    simp_all [get_convolve, get_fftconvolve, cp_get_array_module, cusignal_message]

/-- C5 witness: concrete GPU array, cusignal absent. -/
theorem gpu_convolve_dispatch_wit :
    get_convolve ⟨true, false⟩ ⟨true, [0]⟩
        = Except.error (Err.moduleNotFoundError cusignal_message)
    ∧ get_fftconvolve ⟨true, false⟩ ⟨true, [0]⟩
        = Except.error (Err.moduleNotFoundError cusignal_message) :=
  (gpu_convolve_dispatch ⟨true, false⟩ ⟨true, [0]⟩ rfl rfl).1 rfl

/-- C6 counterexample: in an environment without GPU support, the valid
name "cupy" does not resolve successfully — the claim's "succeeds without
error for the two valid names" fails there. -/
theorem get_module_domain_cex :
    (get_module ⟨false, false⟩ "cupy").isOk = false := by
  decide

/-- C6 (amended): any string outside {"numpy", "cupy"} fails with
`ValueError` in every environment; "numpy" always resolves, and "cupy"
resolves when GPU support is enabled (without it, "cupy" fails with an
unbound-name `NameError` instead, per C10). -/
theorem get_module_domain (deps : Deps) (s : String)
    (hn : s ≠ "numpy") (hc : s ≠ "cupy") :
    get_module deps s = Except.error (Err.valueError "backend must be numpy or cupy")
    ∧ get_module deps "numpy" = Except.ok ModuleHandle.np
    ∧ (deps.cupy_enabled = true → get_module deps "cupy" = Except.ok ModuleHandle.cp) := by
  obtain ⟨ce, cs⟩ := deps
  cases ce <;> simp_all [get_module]

/-- C6 witness: the string "tpu" with GPU support enabled. -/
theorem get_module_domain_wit :
    get_module ⟨true, false⟩ "tpu"
        = Except.error (Err.valueError "backend must be numpy or cupy")
    ∧ get_module ⟨true, false⟩ "numpy" = Except.ok ModuleHandle.np
    ∧ (true = true → get_module ⟨true, false⟩ "cupy" = Except.ok ModuleHandle.cp) :=
  get_module_domain ⟨true, false⟩ "tpu" (by decide) (by decide)

/-- C7 counterexample: without GPU support, a handle that is neither
module does not fail with `ValueError` — the `mod == cp` test raises
`NameError` first. -/
theorem get_module_name_invalid_cex :
    failsWithValueError (get_module_name ⟨false, false⟩ (ModuleHandle.other 0)) = false := by
  decide

/-- C7 (amended): for a handle that is neither `np` nor `cp`,
`get_module_name` fails with `ValueError` when GPU support is enabled,
and with the unbound-name `NameError` for `cp` when it is not. -/
theorem get_module_name_invalid (deps : Deps) (m : ModuleHandle)
    (h1 : m ≠ ModuleHandle.np) (h2 : m ≠ ModuleHandle.cp) :
    get_module_name deps m =
      (if deps.cupy_enabled
       then Except.error (Err.valueError "module must be numpy or cupy")
       else Except.error (Err.nameError "cp")) := by
  obtain ⟨ce, cs⟩ := deps
  cases ce <;> simp_all [get_module_name]

/-- C7 witness: a concrete foreign handle with GPU support enabled. -/
theorem get_module_name_invalid_wit :
    get_module_name ⟨true, false⟩ (ModuleHandle.other 7) =
      (if true then Except.error (Err.valueError "module must be numpy or cupy")
       else Except.error (Err.nameError "cp")) :=
  get_module_name_invalid ⟨true, false⟩ (ModuleHandle.other 7) (by decide) (by decide)

/-- C8: without GPU support, `get_array_module` returns the numpy handle
for every array, GPU-resident or not. -/
theorem get_array_module_no_gpu (deps : Deps) (x : Arr)
    (h : deps.cupy_enabled = false) :
    get_array_module deps x = ModuleHandle.np := by
  simp [get_array_module, h]

/-- C8 witness: a concrete GPU-shaped array in a no-GPU environment. -/
theorem get_array_module_no_gpu_wit :
    get_array_module ⟨false, false⟩ ⟨true, [5, 6]⟩ = ModuleHandle.np :=
  get_array_module_no_gpu ⟨false, false⟩ ⟨true, [5, 6]⟩ rfl

/-- C9: with the capability flags fixed, two calls of `get_array_module`
on the same unchanged array value yield the same module handle — the
function is a pure selector with no internal state. -/
theorem get_array_module_deterministic (deps : Deps) (x : Arr) :
    get_array_module deps x = get_array_module deps x := rfl

/-- C10: without GPU support, `get_module deps "cupy"` fails with the
unbound-name `NameError` for `cp` — not a `ValueError`, which is reserved
for names outside the valid set — so the GPU module handle is never
returned. -/
theorem get_module_cupy_no_gpu (deps : Deps)
    (h : deps.cupy_enabled = false) :
    get_module deps "cupy" = Except.error (Err.nameError "cp")
    ∧ failsWithValueError (get_module deps "cupy") = false := by
  obtain ⟨ce, cs⟩ := deps
  subst h
  simp [get_module, failsWithValueError]

/-- C10 witness: the concrete no-GPU environment. -/
theorem get_module_cupy_no_gpu_wit :
    get_module ⟨false, true⟩ "cupy" = Except.error (Err.nameError "cp")
    ∧ failsWithValueError (get_module ⟨false, true⟩ "cupy") = false :=
  get_module_cupy_no_gpu ⟨false, true⟩ rfl
